import Mathlib

/-!
Verification of the plugin-side RPC client of tflint-plugin-sdk
(`tflint/client.go`): the attribute walk, expression evaluation with its
dynamic-to-static conversion layer, issue emission, and the error-severity
classifier `EnsureNoError`.

The transport (`rpcClient.Call`) is a black box per the spec's Transport
Call Gate contract: each client operation is modelled as a function of the
call's outcome (`Except GoErr response`), which is either the host's
response or a transport fault.
-/

set_option autoImplicit false

namespace TflintClient

/-- Modelled from the spec (the repository's error definitions are not part
of the given source fragment): the severity tag of a classified error, one
of the set described in the data model as severity: Warning, Error,
Unknown. `unknown` stands for any tag outside the recognized set. -/
inductive Level where
  | warning
  | error
  | unknown
  deriving Repr, DecidableEq

/-- Modelled from the spec (the repository's error definitions are not part
of the given source fragment): the kind tag of a classified error. The two
kinds constructed by `EvaluateExpr` are `typeConversionError` and
`typeMismatchError`; `unknownError` stands for any other kind an internal
error may carry. -/
inductive ErrCode where
  | typeConversionError
  | typeMismatchError
  | unknownError
  deriving Repr, DecidableEq

/-- Modelled from the spec (the repository's error definitions are not part
of the given source fragment): a ClassifiedError, carrying a kind, a
severity level, a human message and an optional underlying cause (the
cause is represented by its message). Mirrors the `&Error{Code, Level,
Message, Cause}` literals built in `client.go`. -/
structure AppError where
  code : ErrCode
  level : Level
  message : String
  cause : Option String
  deriving Repr, DecidableEq

/-- A Go `error` value as seen by the client: either a classified error
(`*tflint.Error`, matched by the type assertion in `EnsureNoError`) or any
other error, such as a transport fault, represented by its message. -/
inductive GoErr where
  | app (e : AppError)
  | other (msg : String)
  deriving Repr, DecidableEq

/-- Result of a call to `EnsureNoError`: either a normal return carrying a
Go error-or-nil, or a panic carrying the offending classified error. -/
inductive EnsureResult where
  | normal (r : Option GoErr)
  | panicked (e : AppError)
  deriving Repr, DecidableEq

/-- Embedding of `Client.EnsureNoError` (client.go lines 133-150). The
continuation `proc` is the zero-argument function passed by the caller;
the second component of the result counts how many times `proc` was
invoked during the call (the Go code either calls it once, in the
`err == nil` branch, or not at all). -/
def ensureNoError (err : Option GoErr) (proc : Unit → Option GoErr) :
    EnsureResult × Nat :=
  match err with
  | none => (.normal (proc ()), 1)
  | some (.app appErr) =>
    match appErr.level with
    | .warning => (.normal none, 0)
    | .error => (.normal (some (.app appErr)), 0)
    | .unknown => (.panicked appErr, 0)
  | some (.other msg) => (.normal (some (.other msg)), 0)

/-- Source location data exposed by an expression (`expr.Range()`): the
filename and the start line used in error messages. -/
structure SourceRange where
  filename : String
  startLine : Nat
  deriving Repr, DecidableEq

/-- Embedding of `hcl.Attribute` as far as the client observes it: the
attribute name and its source range; the attribute's expression is opaque
to the walk. -/
structure Attribute where
  name : String
  range : SourceRange
  deriving Repr, DecidableEq

/-- The `for`/`range` loop of `Client.WalkResourceAttributes` (client.go
lines 40-44): invoke `walker` on each attribute in order, stopping at the
first failure. The second component records the attributes actually
delivered to `walker`, in delivery order. -/
def walkAttrList (walker : Attribute → Option GoErr) :
    List Attribute → Option GoErr × List Attribute
  | [] => (none, [])
  | a :: rest =>
    match walker a with
    | some e => (some e, [a])
    | none =>
      let r := walkAttrList walker rest
      (r.1, a :: r.2)

/-- Embedding of `Client.WalkResourceAttributes` (client.go lines 34-47):
`rpc` is the outcome of the single `Plugin.Attributes` transport call: a
transport fault, or the decoded `hcl.Attributes` response. That response
is a Go map keyed by attribute name; the list in the `.ok` payload is
the sequence in which the `for`/`range` loop of lines 40-44 enumerates
that map in one execution — an order the Go runtime leaves unspecified
and randomizes, not an order transmitted by the host. Two executions
over the same response may enumerate different permutations. On
transport failure the fault is returned and no attribute is delivered;
otherwise the loop `walkAttrList` runs over the enumeration. -/
def walkResourceAttributes (rpc : Except GoErr (List Attribute))
    (walker : Attribute → Option GoErr) : Option GoErr × List Attribute :=
  match rpc with
  | .error e => (some e, [])
  | .ok attrs => walkAttrList walker attrs

/-- Modelled from the spec: the dynamic-type descriptors of the cty
collaborator that `EvaluateExpr` targets (spec section 4.2 step 1):
string, number, bool, list-of and map-of. -/
inductive CtyType where
  | string
  | number
  | bool
  | list (elem : CtyType)
  | map (elem : CtyType)
  deriving Repr, DecidableEq

/-- Modelled from the spec: a DynamicValue returned by the host for an
evaluated expression, one of string, number, boolean, list, map, null or
unknown (spec section 3). Numbers are modelled as integers, the numeric
range the claims exercise; collections carry their element type
descriptor as cty values do. -/
inductive CtyValue where
  | str (s : String)
  | num (n : Int)
  | bool (b : Bool)
  | list (elem : CtyType) (elems : List CtyValue)
  | map (elem : CtyType) (entries : List (String × CtyValue))
  | nullVal (t : CtyType)
  | unknown (t : CtyType)

/-- Modelled from the spec: decimal parsing used by the cty collaborator's
string-to-number conversion (spec section 4.2 step 2), over the whole
numbers the claims exercise. -/
def parseCtyNumber (s : String) : Option Int :=
  let digits : List Char → Option Nat := fun cs =>
    cs.foldl
      (fun acc c =>
        match acc with
        | none => none
        | some n => if c.isDigit then some (n * 10 + (c.toNat - 48)) else none)
      (some 0)
  match s.toList with
  | [] => none
  | '-' :: [] => none
  | '-' :: rest => (digits rest).map (fun n => -(n : Int))
  | cs => (digits cs).map (fun n => (n : Int))

/-- Modelled from the spec: the primitive cells of the cty `convert`
collaborator's conversion table (spec sections 4.2 and 9): identity on a
matching primitive, number/bool rendered to string, numeric string parsed
to number; everything else fails with a descriptive message. -/
def convertPrim (val : CtyValue) (t : CtyType) : Except String CtyValue :=
  match t with
  | .string =>
    match val with
    | .str s => .ok (.str s)
    | .num n => .ok (.str (toString n))
    | .bool b => .ok (.str (cond b "true" "false"))
    | _ => .error "string required"
  | .number =>
    match val with
    | .num n => .ok (.num n)
    | .str s =>
      match parseCtyNumber s with
      | some n => .ok (.num n)
      | none => .error "a number is required"
    | _ => .error "number required"
  | .bool =>
    match val with
    | .bool b => .ok (.bool b)
    | .str "true" => .ok (.bool true)
    | .str "false" => .ok (.bool false)
    | _ => .error "bool required"
  | _ => .error "unsupported conversion"

/-- Elementwise conversion of a list's elements to the target element
type, failing on the first element that does not convert. -/
def convertElems (t : CtyType) : List CtyValue → Except String (List CtyValue)
  | [] => .ok []
  | v :: vs =>
    match convertPrim v t with
    | .error msg => .error msg
    | .ok v' =>
      match convertElems t vs with
      | .error msg => .error msg
      | .ok vs' => .ok (v' :: vs')

/-- Elementwise conversion of a map's entry values to the target element
type, failing on the first entry that does not convert. -/
def convertEntries (t : CtyType) :
    List (String × CtyValue) → Except String (List (String × CtyValue))
  | [] => .ok []
  | (k, v) :: es =>
    match convertPrim v t with
    | .error msg => .error msg
    | .ok v' =>
      match convertEntries t es with
      | .error msg => .error msg
      | .ok es' => .ok ((k, v') :: es')

/-- Modelled from the spec: the cty `convert.Convert` collaborator over
the closed ConversionTarget set of spec section 3 (the only target types
`EvaluateExpr` requests): a null or unknown value converts to the null or
unknown of the target type; a list or map target converts a list or map
value elementwise; primitive targets go through the conversion table.
Conversions that mix incompatible shapes fail. -/
def ctyConvert (val : CtyValue) (t : CtyType) : Except String CtyValue :=
  match val with
  | .nullVal _ => .ok (.nullVal t)
  | .unknown _ => .ok (.unknown t)
  | v =>
    match t with
    | .list et =>
      match v with
      | .list _ es =>
        match convertElems et es with
        | .error msg => .error msg
        | .ok es' => .ok (.list et es')
      | _ => .error "list value required"
    | .map et =>
      match v with
      | .map _ es =>
        match convertEntries et es with
        | .error msg => .error msg
        | .ok es' => .ok (.map et es')
      | _ => .error "map value required"
    | _ => convertPrim v t

/-- The static destination shapes a caller can pass to `EvaluateExpr` as
`ret`: the six shapes of the type switch in client.go lines 59-72, plus
`boolDest` standing for a destination outside that supported set (a
`*bool`), which the switch does not match. -/
inductive GoDest where
  | str
  | int
  | listStr
  | listInt
  | mapStr
  | mapInt
  | boolDest
  deriving Repr, DecidableEq

/-- A populated Go destination after a successful decode. -/
inductive GoValue where
  | str (s : String)
  | int (n : Int)
  | listStr (l : List String)
  | listInt (l : List Int)
  | mapStr (m : List (String × String))
  | mapInt (m : List (String × Int))
  | bool (b : Bool)
  deriving Repr, DecidableEq

/-- Decode a list of cty values that must all be strings. -/
def decodeStrings : List CtyValue → Except String (List String)
  | [] => .ok []
  | .str s :: vs =>
    match decodeStrings vs with
    | .error msg => .error msg
    | .ok ss => .ok (s :: ss)
  | _ :: _ => .error "string required"

/-- Decode a list of cty values that must all be numbers. -/
def decodeNumbers : List CtyValue → Except String (List Int)
  | [] => .ok []
  | .num n :: vs =>
    match decodeNumbers vs with
    | .error msg => .error msg
    | .ok ns => .ok (n :: ns)
  | _ :: _ => .error "number required"

/-- Decode map entries whose values must all be strings. -/
def decodeStrEntries :
    List (String × CtyValue) → Except String (List (String × String))
  | [] => .ok []
  | (k, .str s) :: es =>
    match decodeStrEntries es with
    | .error msg => .error msg
    | .ok rest => .ok ((k, s) :: rest)
  | _ :: _ => .error "string required"

/-- Decode map entries whose values must all be numbers. -/
def decodeNumEntries :
    List (String × CtyValue) → Except String (List (String × Int))
  | [] => .ok []
  | (k, .num n) :: es =>
    match decodeNumEntries es with
    | .error msg => .error msg
    | .ok rest => .ok ((k, n) :: rest)
  | _ :: _ => .error "number required"

/-- Modelled from the spec: the `gocty.FromCtyValue` collaborator (spec
section 4.2 step 3), decoding a dynamic value into the concrete static
destination by strict shape matching, binding list and map element types
recursively; null and unknown values, and any shape mismatch, fail. Note
that a boolean destination is a shape this decoder supports even though
the type switch of `EvaluateExpr` does not convert towards it. -/
def fromCtyValue (val : CtyValue) : GoDest → Except String GoValue
  | .str =>
    match val with
    | .str s => .ok (.str s)
    | _ => .error "string value required"
  | .int =>
    match val with
    | .num n => .ok (.int n)
    | _ => .error "number value required"
  | .boolDest =>
    match val with
    | .bool b => .ok (.bool b)
    | _ => .error "bool value required"
  | .listStr =>
    match val with
    | .list _ es =>
      match decodeStrings es with
      | .error msg => .error msg
      | .ok ss => .ok (.listStr ss)
    | _ => .error "list value required"
  | .listInt =>
    match val with
    | .list _ es =>
      match decodeNumbers es with
      | .error msg => .error msg
      | .ok ns => .ok (.listInt ns)
    | _ => .error "list value required"
  | .mapStr =>
    match val with
    | .map _ es =>
      match decodeStrEntries es with
      | .error msg => .error msg
      | .ok m => .ok (.mapStr m)
    | _ => .error "map value required"
  | .mapInt =>
    match val with
    | .map _ es =>
      match decodeNumEntries es with
      | .error msg => .error msg
      | .ok m => .ok (.mapInt m)
    | _ => .error "map value required"

/-- The target dynamic type the type switch of `EvaluateExpr` (client.go
lines 59-72) selects for each destination shape; `none` for a destination
outside the six supported cases, on which the switch does nothing. -/
def targetType : GoDest → Option CtyType
  | .str => some .string
  | .int => some .number
  | .listStr => some (.list .string)
  | .listInt => some (.list .number)
  | .mapStr => some (.map .string)
  | .mapInt => some (.map .number)
  | .boolDest => none

/-- The message of the classified errors `EvaluateExpr` builds: the
expression's source filename and start line (client.go lines 77-82 and
92-97). -/
def convErrMessage (rng : SourceRange) : String :=
  "Invalid type expression in " ++ rng.filename ++ ":" ++ toString rng.startLine

/-- The classified error `EvaluateExpr` builds on a conversion or decode
failure: the given code, error severity, the location-bearing message and
the underlying cause. -/
def mkConvErr (code : ErrCode) (rng : SourceRange) (cause : String) : AppError :=
  { code := code
    level := .error
    message := convErrMessage rng
    cause := some cause }

/-- One emitted log line: the severity prefix that `log.Printf` is given
and the rendered error (client.go lines 84 and 99 both log with the
`ERROR` prefix). The rendered error is its human message, per the spec's
ClassifiedError.humanMessage. -/
structure LogEntry where
  severity : String
  text : String
  deriving Repr, DecidableEq

/-- The log line `log.Printf` receives for a classified error `e`. -/
def logLine (e : AppError) : LogEntry :=
  { severity := "ERROR", text := e.message }

/-- The type switch of `EvaluateExpr` as a whole (client.go lines 59-72):
for a supported destination the received value is converted towards the
destination's dynamic type; for any other destination no case matches,
so the value and the nil error are left untouched. -/
def convStep (val : CtyValue) (dest : GoDest) : Except String CtyValue :=
  match targetType dest with
  | some t => ctyConvert val t
  | none => .ok val

/-- Embedding of `Client.EvaluateExpr` (client.go lines 51-105): `rpc` is
the outcome of the single `Plugin.EvalExpr` transport call (the host's
dynamic value or a transport fault, returned unchanged); `dest` is the
static shape of `ret`; `rng` is `expr.Range()`. The result pairs the
returned error or populated destination with the list of log lines
emitted during the call. -/
def evaluateExpr (rpc : Except GoErr CtyValue) (dest : GoDest)
    (rng : SourceRange) : Except GoErr GoValue × List LogEntry :=
  match rpc with
  | .error e => (.error e, [])
  | .ok val =>
    match convStep val dest with
    | .error cause =>
      let e := mkConvErr .typeConversionError rng cause
      (.error (.app e), [logLine e])
    | .ok val' =>
      match fromCtyValue val' dest with
      | .error cause =>
        let e := mkConvErr .typeMismatchError rng cause
        (.error (.app e), [logLine e])
      | .ok gv => (.ok gv, [])

/-- Embedding of the error path of `Client.EmitIssue` (client.go lines
117-130): after building the request, the single `Plugin.EmitIssue`
transport call either succeeds (nil is returned) or fails (the transport
fault is returned unchanged). -/
def emitIssue (rpc : Except GoErr Unit) : Option GoErr :=
  match rpc with
  | .error e => some e
  | .ok _ => none

/-! Concrete fixtures used by witnesses and counterexamples. -/

/-- A concrete source range. -/
def rng0 : SourceRange := { filename := "main.tf", startLine := 1 }

/-- A concrete warning-severity classified error. -/
def wErr : AppError :=
  { code := .unknownError, level := .warning, message := "w", cause := none }

/-- A concrete error-severity classified error. -/
def eErr : AppError :=
  { code := .unknownError, level := .error, message := "e", cause := none }

/-- A concrete classified error carrying an unrecognized severity. -/
def uErr : AppError :=
  { code := .unknownError, level := .unknown, message := "u", cause := none }

/-- A concrete continuation that succeeds. -/
def procOk : Unit → Option GoErr := fun _ => none

/-- The dynamic map value of the spec's map conversion scenario. -/
def mapAB : CtyValue := .map .string [("a", .str "1"), ("b", .str "2")]

/-- Three concrete attributes for walk scenarios. -/
def attr1 : Attribute := { name := "one", range := rng0 }

/-- Second concrete attribute. -/
def attr2 : Attribute := { name := "two", range := rng0 }

/-- Third concrete attribute. -/
def attr3 : Attribute := { name := "three", range := rng0 }

/-! Helper lemmas about the walk loop. -/

theorem walkAttrList_stop (walker : Attribute → Option GoErr) (e : GoErr)
    (a : Attribute) (post : List Attribute) :
    ∀ pre : List Attribute, (∀ x ∈ pre, walker x = none) → walker a = some e →
      walkAttrList walker (pre ++ a :: post) = (some e, pre ++ [a]) := by
  intro pre
  induction pre with
  | nil => intro _ ha; simp [walkAttrList, ha]
  | cons x xs ih =>
    intro hpre ha
    have hx : walker x = none := hpre x (List.mem_cons_self x xs)
    have hrest := ih (fun y hy => hpre y (List.mem_cons_of_mem x hy)) ha
    simp [walkAttrList, hx, hrest]

theorem walkAttrList_delivered_order (walker : Attribute → Option GoErr) :
    ∀ attrs : List Attribute,
      ∃ rest, attrs = (walkAttrList walker attrs).2 ++ rest := by
  intro attrs
  induction attrs with
  | nil => exact ⟨[], rfl⟩
  | cons a more ih =>
    cases h : walker a with
    | some e => exact ⟨more, by simp [walkAttrList, h]⟩
    | none =>
      obtain ⟨r, hr⟩ := ih
      refine ⟨r, ?_⟩
      simp only [walkAttrList, h, List.cons_append, List.cons.injEq, true_and]
      exact hr

theorem walkAttrList_all_ok (walker : Attribute → Option GoErr) :
    ∀ attrs : List Attribute, (∀ x ∈ attrs, walker x = none) →
      walkAttrList walker attrs = (none, attrs) := by
  intro attrs
  induction attrs with
  | nil => intro _; rfl
  | cons a more ih =>
    intro h
    have ha : walker a = none := h a (List.mem_cons_self a more)
    have hrest := ih (fun y hy => h y (List.mem_cons_of_mem a hy))
    simp [walkAttrList, ha, hrest]

/-! Claim theorems. -/

/-- C1: `EnsureNoError` is the four-way classification: a nil error runs
the continuation exactly once and returns its result; a classified
Warning-severity error returns nil without running the continuation; a
classified Error-severity error returns that exact error without running
the continuation; a non-classified error is returned unchanged without
running the continuation. -/
theorem ensureNoError_classification (proc : Unit → Option GoErr)
    (e : AppError) (msg : String) :
    ensureNoError none proc = (.normal (proc ()), 1)
    ∧ (e.level = .warning →
        ensureNoError (some (.app e)) proc = (.normal none, 0))
    ∧ (e.level = .error →
        ensureNoError (some (.app e)) proc = (.normal (some (.app e)), 0))
    ∧ ensureNoError (some (.other msg)) proc
        = (.normal (some (.other msg)), 0) := by
  refine ⟨rfl, ?_, ?_, rfl⟩ <;> intro h <;> simp [ensureNoError, h]

/-- Witness for C1 at concrete errors and continuation. -/
theorem ensureNoError_classification_witness :
    ensureNoError none procOk = (.normal none, 1)
    ∧ ensureNoError (some (.app wErr)) procOk = (.normal none, 0)
    ∧ ensureNoError (some (.app eErr)) procOk = (.normal (some (.app eErr)), 0)
    ∧ ensureNoError (some (.other "io")) procOk
        = (.normal (some (.other "io")), 0) :=
  ⟨(ensureNoError_classification procOk wErr "io").1,
   (ensureNoError_classification procOk wErr "io").2.1 rfl,
   (ensureNoError_classification procOk eErr "io").2.2.1 rfl,
   (ensureNoError_classification procOk eErr "io").2.2.2⟩

/-- C2: a classified error whose severity tag is outside the recognized
set makes `EnsureNoError` panic, carrying that error; the branch never
returns normally. -/
theorem ensureNoError_unknown_panics (proc : Unit → Option GoErr)
    (e : AppError) (h : e.level = .unknown) :
    ensureNoError (some (.app e)) proc = (.panicked e, 0)
    ∧ ∀ r : Option GoErr,
        (ensureNoError (some (.app e)) proc).1 ≠ .normal r := by
  constructor
  · simp [ensureNoError, h]
  · intro r hc
    simp [ensureNoError, h] at hc

/-- Witness for C2 at a concrete unknown-severity error. -/
theorem ensureNoError_unknown_panics_witness :
    ensureNoError (some (.app uErr)) procOk = (.panicked uErr, 0)
    ∧ ∀ r : Option GoErr,
        (ensureNoError (some (.app uErr)) procOk).1 ≠ .normal r :=
  ensureNoError_unknown_panics procOk uErr rfl

/-- C7: a transport-level failure of the underlying RPC call is returned
unchanged by `WalkResourceAttributes`, `EvaluateExpr` and `EmitIssue`:
not wrapped, not classified, and the call is attempted exactly once by
construction. -/
theorem transport_failures_propagate (e : GoErr)
    (walker : Attribute → Option GoErr) (dest : GoDest) (rng : SourceRange) :
    walkResourceAttributes (.error e) walker = (some e, [])
    ∧ evaluateExpr (.error e) dest rng = (.error e, [])
    ∧ emitIssue (.error e) = some e :=
  ⟨rfl, rfl, rfl⟩

/-- C8: an empty host collection with a successful transport call makes
`WalkResourceAttributes` return nil, and no attribute is ever delivered
to the handler. -/
theorem walk_empty_collection (walker : Attribute → Option GoErr) :
    walkResourceAttributes (.ok []) walker = (none, []) := rfl

/-- C3: when the handler succeeds on every attribute before `a` and fails
on `a` with error `e`, `WalkResourceAttributes` returns that error
unchanged and the attributes delivered to the handler are exactly those
up to and including `a` — nothing after the failing attribute is ever
delivered. -/
theorem walk_stops_at_first_failure (pre post : List Attribute)
    (a : Attribute) (walker : Attribute → Option GoErr) (e : GoErr)
    (hpre : ∀ x ∈ pre, walker x = none) (ha : walker a = some e) :
    walkResourceAttributes (.ok (pre ++ a :: post)) walker
      = (some e, pre ++ [a]) :=
  walkAttrList_stop walker e a post pre hpre ha

/-- Witness for C3: the spec's scenario of a handler failing on the
second of three attributes — the third is never delivered and the
returned error is the handler's error. -/
theorem walk_stops_at_first_failure_witness :
    walkResourceAttributes
        (.ok [attr1, attr2, attr3])
        (fun x => if x.name = "two" then some (.other "boom") else none)
      = (some (.other "boom"), [attr1, attr2]) :=
  walk_stops_at_first_failure [attr1] [attr3] attr2
    (fun x => if x.name = "two" then some (.other "boom") else none)
    (.other "boom")
    (by intro x hx; simp only [List.mem_singleton] at hx; subst hx; rfl)
    rfl

/-- C4 counterexample: delivery order is not a function of the host's
response, so no host-order delivery guarantee exists. The two concrete
lists are permutations of each other — two legitimate `range`
enumerations of the same two-attribute map response — yet with the same
always-succeeding handler they produce different delivered sequences. -/
theorem walk_order_not_determined :
    List.Perm [attr1, attr2] [attr2, attr1]
    ∧ (walkResourceAttributes (.ok [attr1, attr2]) (fun _ => none)).2
        ≠ (walkResourceAttributes (.ok [attr2, attr1]) (fun _ => none)).2 :=
  ⟨List.Perm.swap attr2 attr1 [], by decide⟩

/-- C4 (amended): handler invocations are strictly sequential in the
order the loop enumerates the decoded attribute map — an order the Go
runtime leaves unspecified, not a host-transmitted order. For every
enumeration of the collection, the delivered sequence is an initial
segment of that enumeration; and when the handler succeeds on every
attribute of the collection, nil is returned and every attribute is
delivered exactly once — the delivered sequence is a permutation of the
collection. -/
theorem walk_delivers_enumeration_order (attrs enum : List Attribute)
    (walker : Attribute → Option GoErr) (hperm : enum.Perm attrs) :
    (∃ rest, enum = (walkResourceAttributes (.ok enum) walker).2 ++ rest)
    ∧ ((∀ x ∈ attrs, walker x = none) →
        (walkResourceAttributes (.ok enum) walker).1 = none
        ∧ ((walkResourceAttributes (.ok enum) walker).2).Perm attrs) := by
  refine ⟨walkAttrList_delivered_order walker enum, ?_⟩
  intro h
  have hall : walkAttrList walker enum = (none, enum) :=
    walkAttrList_all_ok walker enum (fun y hy => h y (hperm.mem_iff.mp hy))
  constructor
  · show (walkAttrList walker enum).1 = none
    rw [hall]
  · show ((walkAttrList walker enum).2).Perm attrs
    rw [hall]
    exact hperm

/-- Witness for C4 (amended) at a concrete two-attribute collection, one
of its enumerations, and an always-succeeding handler. -/
theorem walk_delivers_enumeration_order_witness :
    (∃ rest, [attr2, attr1] =
        (walkResourceAttributes (.ok [attr2, attr1]) (fun _ => none)).2 ++ rest)
    ∧ ((walkResourceAttributes (.ok [attr2, attr1]) (fun _ => none)).1 = none
        ∧ ((walkResourceAttributes (.ok [attr2, attr1]) (fun _ => none)).2).Perm
            [attr1, attr2]) :=
  ⟨(walk_delivers_enumeration_order [attr1, attr2] [attr2, attr1]
      (fun _ => none) (List.Perm.swap attr1 attr2 [])).1,
   (walk_delivers_enumeration_order [attr1, attr2] [attr2, attr1]
      (fun _ => none) (List.Perm.swap attr1 attr2 [])).2 (fun _ _ => rfl)⟩

/-! Helper lemmas about elementwise conversion and decoding. -/

theorem convertElems_str (ss : List String) :
    convertElems .string (ss.map .str) = .ok (ss.map .str) := by
  induction ss with
  | nil => rfl
  | cons s more ih => simp [convertElems, convertPrim, ih]

theorem convertElems_num (ns : List Int) :
    convertElems .number (ns.map .num) = .ok (ns.map .num) := by
  induction ns with
  | nil => rfl
  | cons n more ih => simp [convertElems, convertPrim, ih]

theorem decodeStrings_str (ss : List String) :
    decodeStrings (ss.map .str) = .ok ss := by
  induction ss with
  | nil => rfl
  | cons s more ih => simp [decodeStrings, ih]

theorem decodeNumbers_num (ns : List Int) :
    decodeNumbers (ns.map .num) = .ok ns := by
  induction ns with
  | nil => rfl
  | cons n more ih => simp [decodeNumbers, ih]

/-- C9: a dynamic value whose shape already matches the destination
round-trips through `EvaluateExpr` exactly and without error: a dynamic
string yields the same string, a dynamic number the same integer, dynamic
lists of strings or numbers the same lists, and the spec's dynamic map
scenario yields the parsed integer map for an integer-map destination and
the unchanged string map for a string-map destination. -/
theorem evaluateExpr_matching_roundtrip (rng : SourceRange) (s : String)
    (n : Int) (ss : List String) (ns : List Int) :
    evaluateExpr (.ok (.str s)) .str rng = (.ok (.str s), [])
    ∧ evaluateExpr (.ok (.num n)) .int rng = (.ok (.int n), [])
    ∧ evaluateExpr (.ok (.list .string (ss.map .str))) .listStr rng
        = (.ok (.listStr ss), [])
    ∧ evaluateExpr (.ok (.list .number (ns.map .num))) .listInt rng
        = (.ok (.listInt ns), [])
    ∧ evaluateExpr (.ok mapAB) .mapInt rng
        = (.ok (.mapInt [("a", 1), ("b", 2)]), [])
    ∧ evaluateExpr (.ok mapAB) .mapStr rng
        = (.ok (.mapStr [("a", "1"), ("b", "2")]), []) := by
  refine ⟨rfl, rfl, ?_, ?_, rfl, rfl⟩
  · have hc : convStep (.list .string (ss.map .str)) .listStr
        = .ok (.list .string (ss.map .str)) := by
      simp [convStep, targetType, ctyConvert, convertElems_str ss]
    have hd : fromCtyValue (.list .string (ss.map .str)) .listStr
        = .ok (.listStr ss) := by
      simp [fromCtyValue, decodeStrings_str ss]
    simp [evaluateExpr, hc, hd]
  · have hc : convStep (.list .number (ns.map .num)) .listInt
        = .ok (.list .number (ns.map .num)) := by
      simp [convStep, targetType, ctyConvert, convertElems_num ns]
    have hd : fromCtyValue (.list .number (ns.map .num)) .listInt
        = .ok (.listInt ns) := by
      simp [fromCtyValue, decodeNumbers_num ns]
    simp [evaluateExpr, hc, hd]

/-- C5 counterexample: a destination outside the supported set — a
boolean destination — does not make `EvaluateExpr` fail fast: with a
host-returned dynamic boolean, the switch converts nothing and the direct
decode succeeds, so the call returns success and populates the
destination. -/
theorem evaluateExpr_unsupported_dest_succeeds :
    evaluateExpr (.ok (.bool true)) .boolDest rng0
      = (.ok (.bool true), []) := rfl

/-- C5 (amended): for a destination outside the supported set no
type-level conversion is attempted; `EvaluateExpr` directly decodes the
raw dynamic value, succeeding when its shape already matches the
destination and otherwise failing with a classified `TypeMismatchError`
(never a `TypeConversionError`), with nothing partially decoded on
failure. -/
theorem evaluateExpr_unsupported_dest (val : CtyValue) (rng : SourceRange) :
    evaluateExpr (.ok val) .boolDest rng
      = match fromCtyValue val .boolDest with
        | .ok gv => (.ok gv, [])
        | .error cause =>
            (.error (.app (mkConvErr .typeMismatchError rng cause)),
             [logLine (mkConvErr .typeMismatchError rng cause)]) := by
  have hc : convStep val .boolDest = .ok val := rfl
  cases hf : fromCtyValue val .boolDest <;> simp [evaluateExpr, hc, hf]

/-- C6: when the host call succeeded, a failing type-level conversion
makes `EvaluateExpr` return a classified error tagged
`TypeConversionError`, and a failing decode after a successful conversion
one tagged `TypeMismatchError`; in both cases the error has the message
built from the expression's source filename and start line, carries the
underlying cause, and a log line at ERROR severity is emitted with it. -/
theorem evaluateExpr_error_tagging (val : CtyValue) (dest : GoDest)
    (rng : SourceRange) (t : CtyType) (ht : targetType dest = some t) :
    (∀ cause, ctyConvert val t = .error cause →
        evaluateExpr (.ok val) dest rng
          = (.error (.app (mkConvErr .typeConversionError rng cause)),
             [logLine (mkConvErr .typeConversionError rng cause)]))
    ∧ (∀ v' cause, ctyConvert val t = .ok v' →
        fromCtyValue v' dest = .error cause →
        evaluateExpr (.ok val) dest rng
          = (.error (.app (mkConvErr .typeMismatchError rng cause)),
             [logLine (mkConvErr .typeMismatchError rng cause)])) := by
  constructor
  · intro cause hc
    simp [evaluateExpr, convStep, ht, hc]
  · intro v' cause hc hf
    simp [evaluateExpr, convStep, ht, hc, hf]

/-- Witness for C6: a dynamic list into a string destination fails the
conversion with `TypeConversionError`; a dynamic null into a string
destination converts but fails the decode with `TypeMismatchError`. -/
theorem evaluateExpr_error_tagging_witness :
    evaluateExpr (.ok (.list .string [])) .str rng0
      = (.error (.app (mkConvErr .typeConversionError rng0 "string required")),
         [logLine (mkConvErr .typeConversionError rng0 "string required")])
    ∧ evaluateExpr (.ok (.nullVal .string)) .str rng0
      = (.error (.app (mkConvErr .typeMismatchError rng0 "string value required")),
         [logLine (mkConvErr .typeMismatchError rng0 "string value required")]) :=
  ⟨(evaluateExpr_error_tagging (.list .string []) .str rng0 .string rfl).1
     "string required" rfl,
   (evaluateExpr_error_tagging (.nullVal .string) .str rng0 .string rfl).2
     (.nullVal .string) "string value required" rfl rfl⟩

/-- C10: every error that `EvaluateExpr` itself constructs on its
conversion path is a classified error of Error severity with code
`TypeConversionError` or `TypeMismatchError`, and feeding it to
`EnsureNoError` always returns it as fatal: it is neither swallowed as a
warning nor hits the unknown-severity panic. -/
theorem evaluateExpr_constructed_errors_fatal (val : CtyValue)
    (dest : GoDest) (rng : SourceRange) (ge : GoErr) (logs : List LogEntry)
    (proc : Unit → Option GoErr)
    (h : evaluateExpr (.ok val) dest rng = (.error ge, logs)) :
    ∃ e : AppError, ge = .app e ∧ e.level = .error
      ∧ (e.code = .typeConversionError ∨ e.code = .typeMismatchError)
      ∧ ensureNoError (some ge) proc = (.normal (some ge), 0) := by
  cases hs : convStep val dest with
  | error cause =>
    simp only [evaluateExpr, hs] at h
    have hge : GoErr.app (mkConvErr .typeConversionError rng cause) = ge := by
      simpa using congrArg Prod.fst h
    refine ⟨mkConvErr .typeConversionError rng cause, hge.symm, rfl,
      Or.inl rfl, ?_⟩
    rw [← hge]; rfl
  | ok v' =>
    cases hf : fromCtyValue v' dest with
    | error cause =>
      simp only [evaluateExpr, hs, hf] at h
      have hge : GoErr.app (mkConvErr .typeMismatchError rng cause) = ge := by
        simpa using congrArg Prod.fst h
      refine ⟨mkConvErr .typeMismatchError rng cause, hge.symm, rfl,
        Or.inr rfl, ?_⟩
      rw [← hge]; rfl
    | ok gv =>
      simp only [evaluateExpr, hs, hf] at h
      exact absurd (congrArg Prod.fst h) (by simp)

/-- Witness for C10 at a concrete failing conversion. -/
theorem evaluateExpr_constructed_errors_fatal_witness :
    ∃ e : AppError,
      GoErr.app (mkConvErr .typeConversionError rng0 "string required")
        = .app e
      ∧ e.level = .error
      ∧ (e.code = .typeConversionError ∨ e.code = .typeMismatchError)
      ∧ ensureNoError
          (some (.app (mkConvErr .typeConversionError rng0 "string required")))
          procOk
        = (.normal
            (some (.app (mkConvErr .typeConversionError rng0 "string required"))),
           0) :=
  evaluateExpr_constructed_errors_fatal (.list .string []) .str rng0
    (.app (mkConvErr .typeConversionError rng0 "string required"))
    [logLine (mkConvErr .typeConversionError rng0 "string required")]
    procOk rfl

end TflintClient
